import Mathlib

/-!
Shallow embedding of `main.py` of the diagho-bam-uploader repository:
the API client (token probe, authentication, run creation, file upload)
and the flag-file handler (quiescence check, flag-event orchestration).

Network behaviour is abstracted into an `Env` record supplying the
responses each request would receive; the orchestration functions return
the trace of requests issued together with the resulting session state
and outcome, so that ordering and abort properties can be stated.
-/

/-- Python truthiness of an optional string: `None` and `""` are falsy.
Used for `if not self.token:` checks in `main.py`. -/
def pyTruthy : Option String → Bool
  | none => false
  | some s => s ≠ ""

/-- Python `str(x)` on an optional value interpolated into an f-string:
`None` renders as the string "None". -/
def pyStr : Option String → String
  | none => "None"
  | some s => s

/-- The session state held by `APIClient`: just the current token
(`self.token`), which is `None` or a string. -/
structure Session where
  token : Option String
  deriving Repr, DecidableEq

/-- Outcome of `requests.post` on the login endpoint as `authenticate`
sees it (src/main.py lines 96-98): either the request / `raise_for_status`
raised before the body was read, or the parsed JSON body's `access` field
(`None` when absent). -/
inductive AuthResult where
  | transportError
  | response (access : Option String)
  deriving Repr, DecidableEq

/-- Errors `authenticate` can raise: the transport / HTTP error from
`raise_for_status`, or the `RuntimeError("No token in authentication
response")`. -/
inductive AuthError where
  | transport
  | noToken
  deriving Repr, DecidableEq

/-- `APIClient.authenticate` (src/main.py lines 91-101).  On a transport
or HTTP error the exception is raised before `self.token` is assigned.
Otherwise `self.token = response.json().get("access")` runs first, and
only then is the falsiness check made, raising `RuntimeError` when the
field is absent or empty.  Returns the post-state and the raised error,
if any. -/
def authenticate (s : Session) (r : AuthResult) : Session × Option AuthError :=
  match r with
  | AuthResult.transportError => (s, some AuthError.transport)
  | AuthResult.response access =>
      let s' : Session := { token := access }
      if pyTruthy access then (s', none) else (s', some AuthError.noToken)

/-- Outcome of the identity-probe request `GET /users/me/` as
`_is_token_valid` sees it: a transport exception (`requests.RequestException`)
or an HTTP status code. -/
inductive ProbeResult where
  | transportError
  | status (code : Nat)
  deriving Repr, DecidableEq

/-- `APIClient._is_token_valid` (src/main.py lines 74-89): `False` when no
token is held (no request is made); otherwise `True` on HTTP 200, `False`
on a 4xx status, `False` on a transport exception, and `False` on any
other status via the final fallthrough `return False`. -/
def is_token_valid (token : Option String) (probe : ProbeResult) : Bool :=
  if ¬ pyTruthy token then false
  else
    match probe with
    | ProbeResult.transportError => false
    | ProbeResult.status code =>
        if code = 200 then true
        else if 400 ≤ code ∧ code < 500 then false
        else false

/-- `APIClient.upload_file` builds its request URL as
`f"{self.base_url}/runs/{run_id}/attachments"` (src/main.py line 114);
a `None` run id is interpolated as the literal string "None". -/
def upload_file_url (base_url : String) (run_id : Option String) : String :=
  base_url ++ "/runs/" ++ pyStr run_id ++ "/attachments"

/-- A filesystem subtree: regular files carry a modification time. -/
inductive FSTree where
  | file (name : String) (mtime : Int)
  | dir (name : String) (children : List FSTree)
  deriving Repr

mutual
/-- Modification times of every regular file in a subtree (the values
`f.stat().st_mtime` yielded by `rglob('*')` filtered with `is_file()`). -/
def FSTree.mtimes : FSTree → List Int
  | FSTree.file _ m => [m]
  | FSTree.dir _ cs => mtimesList cs

/-- Modification times of every regular file under a list of entries. -/
def mtimesList : List FSTree → List Int
  | [] => []
  | t :: ts => t.mtimes ++ mtimesList ts
end

/-- Python's `max` over a sequence: raises `ValueError` (here `none`) on
an empty sequence. -/
def pyMax : List Int → Option Int
  | [] => none
  | x :: xs => some (xs.foldl max x)

/-- `FlagFileHandler._is_directory_quiescent` (src/main.py lines 194-198):
takes the maximum `st_mtime` over every regular file in the subtree and
returns `now - latest_mtime > quiet_period`.  `none` models the
`ValueError` Python's `max` raises on an empty sequence, propagated to the
caller. -/
def is_directory_quiescent (quiet_period now : Int) (dirChildren : List FSTree) :
    Option Bool :=
  match pyMax (mtimesList dirChildren) with
  | none => none
  | some latest => some (decide (now - latest > quiet_period))

/-- An immediate child of the run directory as `_handle_flag` iterates it:
a regular file, or a subdirectory whose recursive regular files are listed
in `rglob` order. -/
inductive Child where
  | file (name : String)
  | dir (name : String) (files : List String)
  deriving Repr, DecidableEq

/-- A request issued (or local effect performed) during one flag-event,
in order. -/
inductive Event where
  | probe
  | login
  | tokenSaved (token : Option String)
  | quiescencePoll (result : Option Bool)
  | createRun (name : String)
  | upload (run_id : Option String) (path : String)
  | logUploadError (path : String)
  deriving Repr, DecidableEq

/-- Exceptions that can propagate out of `_handle_flag`. -/
inductive ErrKind where
  | auth (e : AuthError)
  | quiescenceValueError
  | runCreation
  | uploadError
  deriving Repr, DecidableEq

/-- How one flag-event ends: the end of `_handle_flag` was reached, an
exception propagated out of it, or the quiescence poll loop is still
running after the supplied poll results. -/
inductive Outcome where
  | completed
  | raised (e : ErrKind)
  | polling
  deriving Repr, DecidableEq

/-- The environment of one flag-event: the response each request would
receive.  `polls` is the sequence of results successive
`_is_directory_quiescent` calls would produce (the subtree may change
between polls); `createRun` is the create-run outcome (an HTTP error, or
the parsed body's `"id"` field, `None` when absent); `uploadOk path`
says whether uploading `path` succeeds. -/
structure Env where
  probe : ProbeResult
  login : AuthResult
  polls : List (Option Bool)
  createRun : Except Unit (Option String)
  uploadOk : String → Bool

/-- Result of the session-ensure step: events issued, resulting session,
raised error if any. -/
structure EnsureResult where
  events : List Event
  session : Session
  err : Option AuthError

/-- The probe request issued by `_is_token_valid`: only made when a
truthy token is held (the method returns `False` early otherwise,
src/main.py lines 76-77). -/
def probeEvents (s : Session) : List Event :=
  if pyTruthy s.token then [Event.probe] else []

/-- The session-ensure step of `_handle_flag` (src/main.py lines 156-160):
`if not self.client._is_token_valid(): self.client.authenticate();
self.client._save_token()`. -/
def ensureStep (env : Env) (s : Session) : EnsureResult :=
  if is_token_valid s.token env.probe then
    ⟨probeEvents s, s, none⟩
  else
    match authenticate s env.login with
    | (s', some e) => ⟨probeEvents s ++ [Event.login], s', some e⟩
    | (s', none) => ⟨probeEvents s ++ [Event.login, Event.tokenSaved s'.token], s', none⟩

/-- How the quiescence poll loop exits. -/
inductive QExit where
  | done
  | raisedValueError
  | stillPolling
  deriving Repr, DecidableEq

/-- The quiescence wait loop of `_handle_flag` (src/main.py lines 163-166):
`while not self._is_directory_quiescent(run_dir): time.sleep(...)`.
Each supplied poll result is consumed in turn; `some true` exits the loop,
`some false` sleeps and continues, `none` (the `ValueError` on an empty
subtree) propagates. -/
def quiescenceLoop : List (Option Bool) → List Event × QExit
  | [] => ([], QExit.stillPolling)
  | p :: rest =>
      match p with
      | none => ([Event.quiescencePoll none], QExit.raisedValueError)
      | some true => ([Event.quiescencePoll (some true)], QExit.done)
      | some false =>
          let r := quiescenceLoop rest
          (Event.quiescencePoll (some false) :: r.1, r.2)

/-- `FlagFileHandler._upload_subdir` (src/main.py lines 184-192): uploads
every regular file in the subtree, catching and logging each per-file
failure; never raises. -/
def upload_subdir (ok : String → Bool) (run_id : Option String)
    (files : List String) : List Event :=
  files.flatMap fun f =>
    if ok f then [Event.upload run_id f]
    else [Event.upload run_id f, Event.logUploadError f]

/-- The upload loop of `_handle_flag` (src/main.py lines 174-180): each
immediate child that is a directory is handed to `_upload_subdir`
(failures contained); each child that is a file other than the flag file
is uploaded directly with NO exception handling, so a failure there
propagates and aborts the loop. -/
def uploadChildren (ok : String → Bool) (run_id : Option String)
    (flagName : String) : List Child → List Event × Option ErrKind
  | [] => ([], none)
  | Child.dir _ files :: rest =>
      let r := uploadChildren ok run_id flagName rest
      (upload_subdir ok run_id files ++ r.1, r.2)
  | Child.file name :: rest =>
      if name = flagName then uploadChildren ok run_id flagName rest
      else if ok name then
        let r := uploadChildren ok run_id flagName rest
        (Event.upload run_id name :: r.1, r.2)
      else ([Event.upload run_id name], some ErrKind.uploadError)

/-- Configuration of `FlagFileHandler` relevant to one flag-event. -/
structure Config where
  quiescent_check : Bool

/-- Result of processing one flag-event. -/
structure FlagResult where
  trace : List Event
  session : Session
  outcome : Outcome

/-- The quiescence wait of `_handle_flag` as gated by the
`quiescent_check` configuration flag (src/main.py lines 162-166). -/
def quiescenceEvents (cfg : Config) (env : Env) : List Event × QExit :=
  if cfg.quiescent_check then quiescenceLoop env.polls else ([], QExit.done)

/-- The part of `_handle_flag` after the session-ensure step: the
optional quiescence wait (src/main.py lines 162-166), run creation and
`run.get("id")` (lines 168-172), and the upload loop (lines 174-180).
Returns the events issued and the event's outcome. -/
def afterEnsure (cfg : Config) (env : Env) (children : List Child)
    (flagName runName : String) : List Event × Outcome :=
  match (quiescenceEvents cfg env).2 with
  | QExit.raisedValueError =>
      ((quiescenceEvents cfg env).1, Outcome.raised ErrKind.quiescenceValueError)
  | QExit.stillPolling => ((quiescenceEvents cfg env).1, Outcome.polling)
  | QExit.done =>
      match env.createRun with
      | Except.error _ =>
          ((quiescenceEvents cfg env).1 ++ [Event.createRun runName],
           Outcome.raised ErrKind.runCreation)
      | Except.ok idOpt =>
          ((quiescenceEvents cfg env).1 ++ [Event.createRun runName] ++
             (uploadChildren env.uploadOk idOpt flagName children).1,
           match (uploadChildren env.uploadOk idOpt flagName children).2 with
           | some e => Outcome.raised e
           | none => Outcome.completed)

/-- `FlagFileHandler._handle_flag` (src/main.py lines 148-182), in the
code's order: (1) session-ensure, (2) optional quiescence wait,
(3) create run and read `run.get("id")`, (4) upload the run directory's
children.  `children` are the run directory's immediate entries and
`runName` is `run_dir.name`; `flagName` is the flag file's base name. -/
def handle_flag (cfg : Config) (env : Env) (s : Session)
    (children : List Child) (flagName runName : String) : FlagResult :=
  match (ensureStep env s).err with
  | some e =>
      ⟨(ensureStep env s).events, (ensureStep env s).session,
       Outcome.raised (ErrKind.auth e)⟩
  | none =>
      ⟨(ensureStep env s).events ++ (afterEnsure cfg env children flagName runName).1,
       (ensureStep env s).session,
       (afterEnsure cfg env children flagName runName).2⟩

/-- Whether an event is an `upload_file` request. -/
def isUploadEvent : Event → Bool
  | Event.upload _ _ => true
  | _ => false

/-! ## Helper lemmas -/

theorem probeEvents_mem (s : Session) (e : Event) (he : e ∈ probeEvents s) :
    e = Event.probe := by
  unfold probeEvents at he
  split at he <;> simp_all

theorem ensureStep_mem (env : Env) (s : Session) (e : Event)
    (he : e ∈ (ensureStep env s).events) :
    e = Event.probe ∨ e = Event.login ∨ ∃ t, e = Event.tokenSaved t := by
  unfold ensureStep at he
  split at he
  · exact Or.inl (probeEvents_mem s e he)
  · split at he
    · simp at he
      rcases he with h | h
      · exact Or.inl (probeEvents_mem s e h)
      · exact Or.inr (Or.inl h)
    · simp at he
      rcases he with h | h | h
      · exact Or.inl (probeEvents_mem s e h)
      · exact Or.inr (Or.inl h)
      · exact Or.inr (Or.inr ⟨_, h⟩)

theorem quiescenceLoop_mem (polls : List (Option Bool)) (e : Event)
    (he : e ∈ (quiescenceLoop polls).1) : ∃ r, e = Event.quiescencePoll r := by
  induction polls with
  | nil => simp [quiescenceLoop] at he
  | cons p rest ih =>
    cases p with
    | none =>
      simp [quiescenceLoop] at he
      exact ⟨none, he⟩
    | some b =>
      cases b with
      | true =>
        simp [quiescenceLoop] at he
        exact ⟨some true, he⟩
      | false =>
        simp [quiescenceLoop] at he
        rcases he with h | h
        · exact ⟨some false, h⟩
        · exact ih h

theorem quiescenceEvents_mem (cfg : Config) (env : Env) (e : Event)
    (he : e ∈ (quiescenceEvents cfg env).1) : ∃ r, e = Event.quiescencePoll r := by
  unfold quiescenceEvents at he
  split at he
  · exact quiescenceLoop_mem env.polls e he
  · simp at he

theorem upload_subdir_mem (ok : String → Bool) (rid : Option String)
    (files : List String) (e : Event) (he : e ∈ upload_subdir ok rid files) :
    (∃ f, f ∈ files ∧ e = Event.upload rid f) ∨ ∃ f, e = Event.logUploadError f := by
  unfold upload_subdir at he
  simp only [List.mem_flatMap] at he
  rcases he with ⟨f, hf, hin⟩
  by_cases h : ok f = true
  · simp [h] at hin
    exact Or.inl ⟨f, hf, hin⟩
  · simp [h] at hin
    rcases hin with h1 | h1
    · exact Or.inl ⟨f, hf, h1⟩
    · exact Or.inr ⟨f, h1⟩

theorem upload_subdir_covers (ok : String → Bool) (rid : Option String)
    (files : List String) (f : String) (hf : f ∈ files) :
    Event.upload rid f ∈ upload_subdir ok rid files := by
  unfold upload_subdir
  simp only [List.mem_flatMap]
  refine ⟨f, hf, ?_⟩
  by_cases h : ok f = true <;> simp [h]

theorem uploadChildren_mem (ok : String → Bool) (rid : Option String)
    (flag : String) (children : List Child) (e : Event)
    (he : e ∈ (uploadChildren ok rid flag children).1) :
    (∃ f, e = Event.upload rid f) ∨ ∃ f, e = Event.logUploadError f := by
  induction children with
  | nil => simp [uploadChildren] at he
  | cons c rest ih =>
    cases c with
    | dir d files =>
      simp only [uploadChildren, List.mem_append] at he
      rcases he with h | h
      · rcases upload_subdir_mem ok rid files e h with ⟨f, _, h1⟩ | h1
        · exact Or.inl ⟨f, h1⟩
        · exact Or.inr h1
      · exact ih h
    | file name =>
      unfold uploadChildren at he
      by_cases h1 : name = flag
      · simp only [h1, if_true] at he
        exact ih he
      · by_cases h2 : ok name = true
        · simp only [h1, h2, if_false, if_true, List.mem_cons] at he
          rcases he with h | h
          · exact Or.inl ⟨name, h⟩
          · exact ih h
        · simp [h1, h2] at he
          exact Or.inl ⟨name, he⟩

theorem uploadChildren_no_err (ok : String → Bool) (rid : Option String)
    (flag : String) (children : List Child) (hok : ∀ p, ok p = true) :
    (uploadChildren ok rid flag children).2 = none := by
  induction children with
  | nil => rfl
  | cons c rest ih =>
    cases c with
    | dir d files => simpa [uploadChildren] using ih
    | file name =>
      by_cases h1 : name = flag
      · simpa [uploadChildren, h1] using ih
      · simpa [uploadChildren, h1, hok name] using ih

theorem uploadChildren_covers_root (ok : String → Bool) (rid : Option String)
    (flag : String) (children : List Child) (name : String)
    (hmem : Child.file name ∈ children) (hne : name ≠ flag)
    (hok : ∀ p, ok p = true) :
    Event.upload rid name ∈ (uploadChildren ok rid flag children).1 := by
  induction children with
  | nil => simp at hmem
  | cons c rest ih =>
    rcases List.mem_cons.mp hmem with h | h
    · rw [← h]
      simp [uploadChildren, hne, hok name]
    · cases c with
      | dir d files =>
        simp only [uploadChildren, List.mem_append]
        exact Or.inr (ih h)
      | file n2 =>
        by_cases h1 : n2 = flag
        · simp only [uploadChildren, h1, if_true]
          exact ih h
        · simp only [uploadChildren, h1, if_false, hok n2, if_true, List.mem_cons]
          exact Or.inr (ih h)

theorem uploadChildren_covers_subdir (ok : String → Bool) (rid : Option String)
    (flag : String) (children : List Child) (d : String) (files : List String)
    (f : String) (hmem : Child.dir d files ∈ children) (hf : f ∈ files)
    (hok : ∀ p, ok p = true) :
    Event.upload rid f ∈ (uploadChildren ok rid flag children).1 := by
  induction children with
  | nil => simp at hmem
  | cons c rest ih =>
    rcases List.mem_cons.mp hmem with h | h
    · rw [← h]
      simp only [uploadChildren, List.mem_append]
      exact Or.inl (upload_subdir_covers ok rid files f hf)
    · cases c with
      | dir d2 files2 =>
        simp only [uploadChildren, List.mem_append]
        exact Or.inr (ih h)
      | file n2 =>
        by_cases h1 : n2 = flag
        · simp only [uploadChildren, h1, if_true]
          exact ih h
        · simp only [uploadChildren, h1, if_false, hok n2, if_true, List.mem_cons]
          exact Or.inr (ih h)

theorem is_token_valid_200 (token : Option String) (h : pyTruthy token = true) :
    is_token_valid token (ProbeResult.status 200) = true := by
  unfold is_token_valid
  simp [h]

theorem ensureStep_of_valid (env : Env) (s : Session)
    (h : is_token_valid s.token env.probe = true) :
    ensureStep env s = ⟨probeEvents s, s, none⟩ := by
  unfold ensureStep
  simp [h]

theorem handle_flag_trace_split (cfg : Config) (env : Env) (s : Session)
    (children : List Child) (flagName runName : String) :
    (handle_flag cfg env s children flagName runName).trace =
      (ensureStep env s).events ++ (afterEnsure cfg env children flagName runName).1 ∨
    (handle_flag cfg env s children flagName runName).trace =
      (ensureStep env s).events := by
  unfold handle_flag
  cases h : (ensureStep env s).err with
  | some e => exact Or.inr rfl
  | none => exact Or.inl rfl

theorem handle_flag_happy (cfg : Config) (env : Env) (s : Session)
    (children : List Child) (flagName runName : String) (rid : Option String)
    (hvalid : is_token_valid s.token env.probe = true)
    (hq : cfg.quiescent_check = false)
    (hcreate : env.createRun = Except.ok rid) :
    handle_flag cfg env s children flagName runName =
      ⟨probeEvents s ++ [Event.createRun runName] ++
        (uploadChildren env.uploadOk rid flagName children).1, s,
       match (uploadChildren env.uploadOk rid flagName children).2 with
       | some e => Outcome.raised e
       | none => Outcome.completed⟩ := by
  unfold handle_flag afterEnsure quiescenceEvents
  rw [ensureStep_of_valid env s hvalid]
  simp [hq, hcreate]

/-! ## Claims -/

/-- C1: the spec requires `is_quiescent(empty_dir, any_period)` to return
true immediately, but `_is_directory_quiescent` reduces `max` over an
empty sequence when the subtree contains no regular file, which raises
`ValueError` (modelled as `none`) instead of returning true.  The code
contradicts the spec here; this theorem evaluates the code at the failing
input: for every quiet period and clock value, the check on a subtree
with no regular files raises rather than returning true. -/
theorem quiescence_empty_dir_raises (q now : Int) (cs : List FSTree)
    (h : mtimesList cs = []) : is_directory_quiescent q now cs = none := by
  unfold is_directory_quiescent
  rw [h]
  rfl

/-- Witness for `quiescence_empty_dir_raises` at the literally empty
directory. -/
theorem quiescence_empty_dir_raises_witness :
    mtimesList [] = [] ∧ is_directory_quiescent 10 1000 [] = none :=
  ⟨rfl, quiescence_empty_dir_raises 10 1000 [] rfl⟩

/-- C9: for a directory whose maximum file-modification time over the
recursive subtree is `latest` (so its most recent file was modified
`now - latest` seconds before the check), the quiescence check returns
true iff `now - latest > quiet_period`, a strict inequality. -/
theorem quiescence_threshold (q now latest : Int) (cs : List FSTree)
    (h : pyMax (mtimesList cs) = some latest) :
    (is_directory_quiescent q now cs = some true ↔ now - latest > q) := by
  unfold is_directory_quiescent
  rw [h]
  simp

/-- Witness for `quiescence_threshold`: one file modified at time 5,
checked at time 10 with quiet period 3. -/
theorem quiescence_threshold_witness :
    pyMax (mtimesList [FSTree.file "a" 5]) = some 5 ∧
    (is_directory_quiescent 3 10 [FSTree.file "a" 5] = some true ↔ (10 : Int) - 5 > 3) :=
  ⟨rfl, quiescence_threshold 3 10 5 [FSTree.file "a" 5] rfl⟩

/-- C4 counterexample: a session holding token "old" that receives a login
response without the token field raises the error, but the previously held
token has already been overwritten with the absent field value — the
session does NOT keep its previous token on this failed authentication,
refuting the claimed never-partially-updated invariant. -/
theorem authenticate_clobbers_token_cex :
    (authenticate ⟨some "old"⟩ (AuthResult.response none)).2 = some AuthError.noToken ∧
    (authenticate ⟨some "old"⟩ (AuthResult.response none)).1.token = none := by
  constructor <;> rfl

/-- C4 amended: a login response lacking the token field makes
`authenticate` fail with the no-token error, but only after assigning the
absent field to the session token (clearing any previously held token);
a transport/HTTP failure leaves the session untouched; a successful
authentication unconditionally replaces the token. -/
theorem authenticate_amended (s : Session) (a : Option String) :
    (authenticate s (AuthResult.response none)).2 = some AuthError.noToken ∧
    (authenticate s (AuthResult.response none)).1.token = none ∧
    authenticate s AuthResult.transportError = (s, some AuthError.transport) ∧
    (pyTruthy a = true → authenticate s (AuthResult.response a) = (⟨a⟩, none)) := by
  refine ⟨rfl, rfl, rfl, fun ha => ?_⟩
  unfold authenticate
  simp [ha]

/-- Witness for `authenticate_amended`: session "old", fresh token "new". -/
theorem authenticate_amended_witness :
    pyTruthy (some "new") = true ∧
    authenticate ⟨some "old"⟩ (AuthResult.response (some "new")) =
      (⟨some "new"⟩, none) :=
  ⟨by decide, (authenticate_amended ⟨some "old"⟩ (some "new")).2.2.2 (by decide)⟩

theorem ensureStep_login_of_invalid (env : Env) (s : Session)
    (h : is_token_valid s.token env.probe = false) :
    Event.login ∈ (ensureStep env s).events := by
  unfold ensureStep
  rw [h]
  simp only [Bool.false_eq_true, if_false]
  rcases hA : authenticate s env.login with ⟨s', oe⟩
  cases oe <;> simp

/-- C8: the token-validity probe returns true iff a (truthy) token is held
and the identity request answers HTTP 200; every 4xx status, every other
status, and every transport error yields false — and whenever the probe
comes back false during a flag-event, a login request (reauthentication)
is issued. -/
theorem token_probe_semantics :
    (∀ (token : Option String) (probe : ProbeResult),
        is_token_valid token probe = true ↔
          pyTruthy token = true ∧ probe = ProbeResult.status 200) ∧
    (∀ (cfg : Config) (env : Env) (s : Session) (children : List Child)
        (flagName runName : String),
        is_token_valid s.token env.probe = false →
          Event.login ∈ (handle_flag cfg env s children flagName runName).trace) := by
  constructor
  · intro token probe
    unfold is_token_valid
    by_cases ht : pyTruthy token = true
    · cases probe with
      | transportError => simp [ht]
      | status code =>
        by_cases h2 : code = 200
        · subst h2; simp [ht]
        · simp [ht, h2, ite_self]
    · simp [ht]
  · intro cfg env s children flagName runName hinv
    have hmem := ensureStep_login_of_invalid env s hinv
    rcases handle_flag_trace_split cfg env s children flagName runName with h | h
    · rw [h]; exact List.mem_append_left _ hmem
    · rw [h]; exact hmem

/-- An environment in which every request succeeds. -/
def envAllOk : Env :=
  ⟨ProbeResult.status 200, AuthResult.response (some "tok"), [],
   Except.ok (some "r1"), fun _ => true⟩

/-- Witness for `token_probe_semantics`: a session with no token makes the
probe report invalid, and the flag-event then issues a login request. -/
theorem token_probe_semantics_witness :
    is_token_valid (Session.mk none).token envAllOk.probe = false ∧
    Event.login ∈ (handle_flag ⟨false⟩ envAllOk ⟨none⟩ [] "f.done" "run").trace :=
  ⟨by decide,
   token_probe_semantics.2 ⟨false⟩ envAllOk ⟨none⟩ [] "f.done" "run" (by decide)⟩

theorem is_token_valid_4xx_false (token : Option String) (code : Nat)
    (hlow : 400 ≤ code) (hhigh : code < 500) :
    is_token_valid token (ProbeResult.status code) = false := by
  have hne : code ≠ 200 := by omega
  unfold is_token_valid
  by_cases ht : pyTruthy token = true
  · simp [ht, hne, hlow, hhigh]
  · simp [ht]

/-- C7: when a truthy token's identity probe answers a 4xx (client-error)
status, the session-ensure step of `_handle_flag` issues exactly one login
request and persists the fresh token (the save event) before returning,
leaving the session holding the new token and no error. -/
theorem reauth_on_client_error (env : Env) (s : Session) (code : Nat)
    (a : Option String)
    (htok : pyTruthy s.token = true)
    (hprobe : env.probe = ProbeResult.status code)
    (hlow : 400 ≤ code) (hhigh : code < 500)
    (hlogin : env.login = AuthResult.response a) (ha : pyTruthy a = true) :
    ensureStep env s =
      ⟨[Event.probe, Event.login, Event.tokenSaved a], ⟨a⟩, none⟩ := by
  have hinv : is_token_valid s.token env.probe = false := by
    rw [hprobe]; exact is_token_valid_4xx_false s.token code hlow hhigh
  unfold ensureStep
  rw [hinv, hlogin]
  simp only [Bool.false_eq_true, if_false]
  unfold authenticate
  simp [ha, probeEvents, htok]

/-- An environment whose identity probe answers 401 and whose login
succeeds with a fresh token. -/
def env401 : Env :=
  ⟨ProbeResult.status 401, AuthResult.response (some "new"), [],
   Except.ok none, fun _ => true⟩

/-- Witness for `reauth_on_client_error` at status 401. -/
theorem reauth_on_client_error_witness :
    (pyTruthy (some "old") = true ∧ 400 ≤ 401 ∧ 401 < 500 ∧
      pyTruthy (some "new") = true) ∧
    ensureStep env401 ⟨some "old"⟩ =
      ⟨[Event.probe, Event.login, Event.tokenSaved (some "new")],
       ⟨some "new"⟩, none⟩ :=
  ⟨⟨by decide, by decide, by decide, by decide⟩,
   reauth_on_client_error env401 ⟨some "old"⟩ 401 (some "new") (by decide) rfl
     (by decide) (by decide) rfl (by decide)⟩

theorem afterEnsure_mem_createRun_error (cfg : Config) (env : Env)
    (children : List Child) (flagName runName : String) (e : Event)
    (h : env.createRun = Except.error ())
    (he : e ∈ (afterEnsure cfg env children flagName runName).1) :
    (∃ r, e = Event.quiescencePoll r) ∨ e = Event.createRun runName := by
  unfold afterEnsure at he
  split at he
  · exact Or.inl (quiescenceEvents_mem cfg env e he)
  · exact Or.inl (quiescenceEvents_mem cfg env e he)
  · rw [h] at he
    simp at he
    rcases he with h1 | h1
    · exact Or.inl (quiescenceEvents_mem cfg env e h1)
    · exact Or.inr h1

theorem afterEnsure_outcome_createRun_error (cfg : Config) (env : Env)
    (children : List Child) (flagName runName : String)
    (h : env.createRun = Except.error ()) :
    (afterEnsure cfg env children flagName runName).2 ≠ Outcome.completed := by
  unfold afterEnsure
  split
  · simp
  · simp
  · rw [h]; simp

/-- C5: when the create-run request errors, the flag-event is aborted (it
does not complete) and no `upload_file` request is ever issued during the
event. -/
theorem run_creation_abort (cfg : Config) (env : Env) (s : Session)
    (children : List Child) (flagName runName : String)
    (h : env.createRun = Except.error ()) :
    (∀ (rid : Option String) (p : String),
      Event.upload rid p ∉ (handle_flag cfg env s children flagName runName).trace) ∧
    (handle_flag cfg env s children flagName runName).outcome ≠ Outcome.completed := by
  constructor
  · intro rid p hmem
    rcases handle_flag_trace_split cfg env s children flagName runName with ht | ht
    · rw [ht] at hmem
      rcases List.mem_append.mp hmem with h1 | h1
      · rcases ensureStep_mem env s _ h1 with h2 | h2 | ⟨t, h2⟩ <;> simp at h2
      · rcases afterEnsure_mem_createRun_error cfg env children flagName runName _
          h h1 with ⟨r, h2⟩ | h2 <;> simp at h2
    · rw [ht] at hmem
      rcases ensureStep_mem env s _ hmem with h2 | h2 | ⟨t, h2⟩ <;> simp at h2
  · unfold handle_flag
    cases he : (ensureStep env s).err with
    | some e => simp
    | none => exact afterEnsure_outcome_createRun_error cfg env children flagName runName h

/-- An environment whose create-run request fails. -/
def envCreateFail : Env :=
  ⟨ProbeResult.status 200, AuthResult.response (some "t"), [],
   Except.error (), fun _ => true⟩

/-- Witness for `run_creation_abort`. -/
theorem run_creation_abort_witness :
    envCreateFail.createRun = Except.error () ∧
    Event.upload (some "r1") "data.csv" ∉
      (handle_flag ⟨false⟩ envCreateFail ⟨some "tok"⟩ [Child.file "data.csv"]
        "f.done" "run").trace ∧
    (handle_flag ⟨false⟩ envCreateFail ⟨some "tok"⟩ [Child.file "data.csv"]
        "f.done" "run").outcome ≠ Outcome.completed :=
  ⟨rfl,
   (run_creation_abort ⟨false⟩ envCreateFail ⟨some "tok"⟩ [Child.file "data.csv"]
      "f.done" "run" rfl).1 (some "r1") "data.csv",
   (run_creation_abort ⟨false⟩ envCreateFail ⟨some "tok"⟩ [Child.file "data.csv"]
      "f.done" "run" rfl).2⟩

/-- C6: for a run directory whose immediate children are the regular
files `data.csv` and the flag file `upload.done`, the flag-event uploads
exactly `data.csv` (the upload requests of the trace are precisely that
one) and never issues an upload of the flag file itself. -/
theorem flag_exclusion (env : Env) (s : Session) (rid : Option String)
    (runName : String)
    (htok : pyTruthy s.token = true)
    (hprobe : env.probe = ProbeResult.status 200)
    (hcreate : env.createRun = Except.ok rid)
    (hok : env.uploadOk "data.csv" = true) :
    ((handle_flag ⟨false⟩ env s [Child.file "data.csv", Child.file "upload.done"]
        "upload.done" runName).trace.filter isUploadEvent) =
      [Event.upload rid "data.csv"] ∧
    ∀ (r : Option String),
      Event.upload r "upload.done" ∉
        (handle_flag ⟨false⟩ env s [Child.file "data.csv", Child.file "upload.done"]
          "upload.done" runName).trace := by
  have hvalid : is_token_valid s.token env.probe = true := by
    rw [hprobe]; exact is_token_valid_200 s.token htok
  have hh := handle_flag_happy ⟨false⟩ env s
      [Child.file "data.csv", Child.file "upload.done"] "upload.done" runName rid
      hvalid rfl hcreate
  have htr : (handle_flag ⟨false⟩ env s
      [Child.file "data.csv", Child.file "upload.done"] "upload.done" runName).trace =
      probeEvents s ++ [Event.createRun runName, Event.upload rid "data.csv"] := by
    rw [hh]
    simp [uploadChildren, hok]
  constructor
  · rw [htr]
    simp [probeEvents, htok, isUploadEvent]
  · intro r hmem
    rw [htr] at hmem
    simp [probeEvents, htok] at hmem

/-- Witness for `flag_exclusion` in the all-success environment. -/
theorem flag_exclusion_witness :
    (pyTruthy (some "tok") = true ∧ envAllOk.probe = ProbeResult.status 200 ∧
     envAllOk.createRun = Except.ok (some "r1") ∧
     envAllOk.uploadOk "data.csv" = true) ∧
    (handle_flag ⟨false⟩ envAllOk ⟨some "tok"⟩
        [Child.file "data.csv", Child.file "upload.done"] "upload.done"
        "run42").trace.filter isUploadEvent = [Event.upload (some "r1") "data.csv"] ∧
    Event.upload (some "r1") "upload.done" ∉
      (handle_flag ⟨false⟩ envAllOk ⟨some "tok"⟩
        [Child.file "data.csv", Child.file "upload.done"] "upload.done"
        "run42").trace :=
  ⟨⟨by decide, rfl, rfl, rfl⟩,
   (flag_exclusion envAllOk ⟨some "tok"⟩ (some "r1") "run42"
      (by decide) rfl rfl rfl).1,
   (flag_exclusion envAllOk ⟨some "tok"⟩ (some "r1") "run42"
      (by decide) rfl rfl rfl).2 (some "r1")⟩

/-- An environment in which exactly the upload of "a.bin" fails. -/
def envRootFail : Env :=
  ⟨ProbeResult.status 200, AuthResult.response (some "t"), [],
   Except.ok (some "r1"), fun p => p != "a.bin"⟩

/-- C2 counterexample: with root-level children `a.bin` (whose upload
fails) and `b.bin`, the failure of `a.bin` propagates: `b.bin` is never
attempted (the trace stops at the failed upload) and the flag-event
aborts instead of completing — refuting the claim that a single file's
upload failure never aborts the remaining uploads or the overall event. -/
theorem root_upload_failure_aborts_cex :
    (handle_flag ⟨false⟩ envRootFail ⟨some "tok"⟩
        [Child.file "a.bin", Child.file "b.bin"] "f.done" "run").trace =
      [Event.probe, Event.createRun "run", Event.upload (some "r1") "a.bin"] ∧
    (handle_flag ⟨false⟩ envRootFail ⟨some "tok"⟩
        [Child.file "a.bin", Child.file "b.bin"] "f.done" "run").outcome =
      Outcome.raised ErrKind.uploadError := by
  constructor <;> rfl

/-- C2 amended: a failed upload of a file inside a subdirectory is caught
and does not abort the remaining uploads or the event (which completes),
whereas a failed upload of a root-level child of the run directory is not
caught: it aborts the remaining uploads and raises out of the event. -/
theorem upload_failure_containment (env : Env) (s : Session)
    (rid : Option String) (flagName runName dname : String)
    (files : List String)
    (htok : pyTruthy s.token = true)
    (hprobe : env.probe = ProbeResult.status 200)
    (hcreate : env.createRun = Except.ok rid) :
    ((∀ f, f ∈ files →
        Event.upload rid f ∈
          (handle_flag ⟨false⟩ env s [Child.dir dname files] flagName runName).trace) ∧
      (handle_flag ⟨false⟩ env s [Child.dir dname files] flagName runName).outcome =
        Outcome.completed) ∧
    (∀ (name : String) (rest : List Child),
        env.uploadOk name = false → name ≠ flagName →
      (handle_flag ⟨false⟩ env s (Child.file name :: rest) flagName runName).trace =
        probeEvents s ++ [Event.createRun runName, Event.upload rid name] ∧
      (handle_flag ⟨false⟩ env s (Child.file name :: rest) flagName runName).outcome =
        Outcome.raised ErrKind.uploadError) := by
  have hvalid : is_token_valid s.token env.probe = true := by
    rw [hprobe]; exact is_token_valid_200 s.token htok
  constructor
  · have hh := handle_flag_happy ⟨false⟩ env s [Child.dir dname files]
      flagName runName rid hvalid rfl hcreate
    have hu1 : (uploadChildren env.uploadOk rid flagName [Child.dir dname files]).1 =
        upload_subdir env.uploadOk rid files := by
      simp [uploadChildren]
    have hu2 : (uploadChildren env.uploadOk rid flagName [Child.dir dname files]).2 =
        none := by
      simp [uploadChildren]
    constructor
    · intro f hf
      rw [hh]
      show Event.upload rid f ∈ probeEvents s ++ [Event.createRun runName] ++
        (uploadChildren env.uploadOk rid flagName [Child.dir dname files]).1
      rw [hu1]
      exact List.mem_append_right _ (upload_subdir_covers env.uploadOk rid files f hf)
    · rw [hh]
      show (match (uploadChildren env.uploadOk rid flagName [Child.dir dname files]).2 with
        | some e => Outcome.raised e
        | none => Outcome.completed) = Outcome.completed
      rw [hu2]
  · intro name rest hfail hne
    have hh := handle_flag_happy ⟨false⟩ env s (Child.file name :: rest)
      flagName runName rid hvalid rfl hcreate
    have hu : uploadChildren env.uploadOk rid flagName (Child.file name :: rest) =
        ([Event.upload rid name], some ErrKind.uploadError) := by
      simp [uploadChildren, hne, hfail]
    rw [hh, hu]
    constructor <;> simp

/-- Witness for `upload_failure_containment`: subdirectory `logs` with two
files, and a failing root-level file `a.bin`. -/
theorem upload_failure_containment_witness :
    (pyTruthy (some "tok") = true ∧ envRootFail.probe = ProbeResult.status 200 ∧
     envRootFail.createRun = Except.ok (some "r1") ∧
     "logs/a.txt" ∈ ["logs/a.txt", "logs/b.txt"] ∧
     envRootFail.uploadOk "a.bin" = false ∧ "a.bin" ≠ "f.done") ∧
    Event.upload (some "r1") "logs/a.txt" ∈
      (handle_flag ⟨false⟩ envRootFail ⟨some "tok"⟩
        [Child.dir "logs" ["logs/a.txt", "logs/b.txt"]] "f.done" "run").trace ∧
    (handle_flag ⟨false⟩ envRootFail ⟨some "tok"⟩
        [Child.dir "logs" ["logs/a.txt", "logs/b.txt"]] "f.done" "run").outcome =
      Outcome.completed ∧
    (handle_flag ⟨false⟩ envRootFail ⟨some "tok"⟩
        [Child.file "a.bin", Child.file "b.bin"] "f.done" "run").outcome =
      Outcome.raised ErrKind.uploadError :=
  ⟨⟨by decide, rfl, rfl, by simp, by decide, by decide⟩,
   (upload_failure_containment envRootFail ⟨some "tok"⟩ (some "r1") "f.done" "run"
      "logs" ["logs/a.txt", "logs/b.txt"] (by decide) rfl rfl).1.1 "logs/a.txt"
      (by simp),
   (upload_failure_containment envRootFail ⟨some "tok"⟩ (some "r1") "f.done" "run"
      "logs" ["logs/a.txt", "logs/b.txt"] (by decide) rfl rfl).1.2,
   ((upload_failure_containment envRootFail ⟨some "tok"⟩ (some "r1") "f.done" "run"
      "logs" ["logs/a.txt", "logs/b.txt"] (by decide) rfl rfl).2 "a.bin"
      [Child.file "b.bin"] (by decide) (by decide)).2⟩

/-- An environment with the quiescence gate relevant: the probe answers
401 (forcing reauthentication) and the first quiescence poll already
reports quiescent. -/
def envQGate : Env :=
  ⟨ProbeResult.status 401, AuthResult.response (some "new"), [some true],
   Except.ok (some "r1"), fun _ => true⟩

/-- C3 counterexample: with the quiescence gate enabled, the trace of one
flag-event shows the session-validity check (the identity probe, followed
here by reauthentication and token persistence) happening strictly BEFORE
the first quiescence poll — the code runs Session-ensured before
Quiescent-wait, refuting the claimed order Quiescent-wait then
Session-ensured. -/
theorem session_check_before_quiescence_cex :
    (handle_flag ⟨true⟩ envQGate ⟨some "old"⟩ [] "f.done" "run").trace =
      [Event.probe, Event.login, Event.tokenSaved (some "new"),
       Event.quiescencePoll (some true), Event.createRun "run"] ∧
    (handle_flag ⟨true⟩ envQGate ⟨some "old"⟩ [] "f.done" "run").trace.indexOf
        Event.probe <
      (handle_flag ⟨true⟩ envQGate ⟨some "old"⟩ [] "f.done" "run").trace.indexOf
        (Event.quiescencePoll (some true)) := by
  constructor
  · rfl
  · decide

theorem afterEnsure_decomp (cfg : Config) (env : Env)
    (children : List Child) (flagName runName : String) :
    ∃ rest, (afterEnsure cfg env children flagName runName).1 =
        (quiescenceEvents cfg env).1 ++ rest ∧
      ∀ r, Event.quiescencePoll r ∉ rest := by
  unfold afterEnsure
  split
  · exact ⟨[], by simp, by simp⟩
  · exact ⟨[], by simp, by simp⟩
  · cases hc : env.createRun with
    | error u =>
      refine ⟨[Event.createRun runName], by simp, ?_⟩
      intro r h
      simp at h
    | ok idOpt =>
      refine ⟨Event.createRun runName ::
        (uploadChildren env.uploadOk idOpt flagName children).1, by simp, ?_⟩
      intro r h
      simp at h
      rcases uploadChildren_mem env.uploadOk idOpt flagName children _ h with
        ⟨f, hf⟩ | ⟨f, hf⟩ <;> simp at hf

/-- C3 amended: within one flag-event the fixed order is Triggered,
Session-ensured, Quiescent-wait, Run-registered: every trace decomposes
into the session-ensure step's events (which contain no quiescence poll),
then the quiescent-wait events (all of which are quiescence polls), then
the rest of the event (which contains no quiescence poll) — i.e. the
session-validity check completes before the quiescent wait, which
completes before run registration. -/
theorem session_ensure_precedes_quiescent_wait (cfg : Config) (env : Env)
    (s : Session) (children : List Child) (flagName runName : String) :
    ∃ qevs rest,
      (handle_flag cfg env s children flagName runName).trace =
        (ensureStep env s).events ++ qevs ++ rest ∧
      (∀ r, Event.quiescencePoll r ∉ (ensureStep env s).events) ∧
      (∀ e, e ∈ qevs → ∃ r, e = Event.quiescencePoll r) ∧
      (∀ r, Event.quiescencePoll r ∉ rest) := by
  have hens : ∀ r, Event.quiescencePoll r ∉ (ensureStep env s).events := by
    intro r hmem
    rcases ensureStep_mem env s _ hmem with h | h | ⟨t, h⟩ <;> simp at h
  unfold handle_flag
  cases he : (ensureStep env s).err with
  | some e => exact ⟨[], [], by simp, hens, by simp, by simp⟩
  | none =>
    obtain ⟨rest, hae, hrest⟩ := afterEnsure_decomp cfg env children flagName runName
    refine ⟨(quiescenceEvents cfg env).1, rest, ?_,
      hens, fun e he2 => quiescenceEvents_mem cfg env e he2, hrest⟩
    show (ensureStep env s).events ++ (afterEnsure cfg env children flagName runName).1 =
      (ensureStep env s).events ++ (quiescenceEvents cfg env).1 ++ rest
    rw [hae, List.append_assoc]

/-- C10: when the create-run response parses but carries no `id` field,
the flag-event is not aborted: it completes, every root-level target file
and every subdirectory file is uploaded with the absent run id (`None`),
and the attachment URL is built from the missing identifier, interpolating
the literal "None". -/
theorem missing_run_id_uploads_proceed (env : Env) (s : Session)
    (children : List Child) (flagName runName base : String)
    (htok : pyTruthy s.token = true)
    (hprobe : env.probe = ProbeResult.status 200)
    (hcreate : env.createRun = Except.ok none)
    (hok : ∀ p, env.uploadOk p = true) :
    (handle_flag ⟨false⟩ env s children flagName runName).outcome =
      Outcome.completed ∧
    (∀ (name : String), Child.file name ∈ children → name ≠ flagName →
        Event.upload none name ∈
          (handle_flag ⟨false⟩ env s children flagName runName).trace) ∧
    (∀ (d : String) (files : List String) (f : String),
        Child.dir d files ∈ children → f ∈ files →
        Event.upload none f ∈
          (handle_flag ⟨false⟩ env s children flagName runName).trace) ∧
    upload_file_url base none = base ++ "/runs/None/attachments" := by
  have hvalid : is_token_valid s.token env.probe = true := by
    rw [hprobe]; exact is_token_valid_200 s.token htok
  have hh := handle_flag_happy ⟨false⟩ env s children flagName runName none
    hvalid rfl hcreate
  refine ⟨?_, ?_, ?_, ?_⟩
  · rw [hh]
    show (match (uploadChildren env.uploadOk none flagName children).2 with
      | some e => Outcome.raised e
      | none => Outcome.completed) = Outcome.completed
    rw [uploadChildren_no_err env.uploadOk none flagName children hok]
  · intro name hmem hne
    rw [hh]
    exact List.mem_append_right _
      (uploadChildren_covers_root env.uploadOk none flagName children name hmem hne hok)
  · intro d files f hmem hf
    rw [hh]
    exact List.mem_append_right _
      (uploadChildren_covers_subdir env.uploadOk none flagName children d files f hmem hf hok)
  · simp [upload_file_url, pyStr, String.append_assoc]

/-- An environment whose create-run response succeeds but carries no `id`
field. -/
def envNoId : Env :=
  ⟨ProbeResult.status 200, AuthResult.response (some "t"), [],
   Except.ok none, fun _ => true⟩

/-- Witness for `missing_run_id_uploads_proceed`: a run directory with the
root-level file `data.csv` and the subdirectory `logs`. -/
theorem missing_run_id_uploads_proceed_witness :
    (pyTruthy (some "tok") = true ∧ envNoId.probe = ProbeResult.status 200 ∧
     envNoId.createRun = Except.ok none ∧ envNoId.uploadOk "x" = true ∧
     Child.file "data.csv" ∈
       [Child.file "data.csv", Child.dir "logs" ["logs/a.txt"]] ∧
     "data.csv" ≠ "f.done") ∧
    (handle_flag ⟨false⟩ envNoId ⟨some "tok"⟩
        [Child.file "data.csv", Child.dir "logs" ["logs/a.txt"]] "f.done"
        "run").outcome = Outcome.completed ∧
    Event.upload none "data.csv" ∈
      (handle_flag ⟨false⟩ envNoId ⟨some "tok"⟩
        [Child.file "data.csv", Child.dir "logs" ["logs/a.txt"]] "f.done"
        "run").trace ∧
    Event.upload none "logs/a.txt" ∈
      (handle_flag ⟨false⟩ envNoId ⟨some "tok"⟩
        [Child.file "data.csv", Child.dir "logs" ["logs/a.txt"]] "f.done"
        "run").trace ∧
    upload_file_url "https://api" none = "https://api/runs/None/attachments" :=
  ⟨⟨by decide, rfl, rfl, rfl, by simp, by decide⟩,
   (missing_run_id_uploads_proceed envNoId ⟨some "tok"⟩
      [Child.file "data.csv", Child.dir "logs" ["logs/a.txt"]] "f.done" "run"
      "https://api" (by decide) rfl rfl (fun _ => rfl)).1,
   (missing_run_id_uploads_proceed envNoId ⟨some "tok"⟩
      [Child.file "data.csv", Child.dir "logs" ["logs/a.txt"]] "f.done" "run"
      "https://api" (by decide) rfl rfl (fun _ => rfl)).2.1 "data.csv" (by simp)
      (by decide),
   (missing_run_id_uploads_proceed envNoId ⟨some "tok"⟩
      [Child.file "data.csv", Child.dir "logs" ["logs/a.txt"]] "f.done" "run"
      "https://api" (by decide) rfl rfl (fun _ => rfl)).2.2.1 "logs"
      ["logs/a.txt"] "logs/a.txt" (by simp) (by simp),
   (missing_run_id_uploads_proceed envNoId ⟨some "tok"⟩
      [Child.file "data.csv", Child.dir "logs" ["logs/a.txt"]] "f.done" "run"
      "https://api" (by decide) rfl rfl (fun _ => rfl)).2.2.2⟩
